import Mathlib

set_option linter.unusedVariables false

/-!
Verification of the magnetic-grid animation core (src/main.ts).

The program is embedded shallowly over the rationals.  All numeric values of
the source (coordinates, offsets, thresholds) become elements of the ordered
field of rationals; the source's floating-point arithmetic is read as exact
real arithmetic, as the specification does.

The only non-rational primitive used by the source is the Euclidean distance
of a marker center to the pointer, computed as the square root of
dx * dx + dy * dy, and the trigonometric pair cos (atan2 dy dx),
sin (atan2 dy dx).  The latter pair equals (dx / distance, dy / distance)
whenever the distance is nonzero, and (1, 0) at the origin because atan2 of
two zeros is zero.  We therefore parameterise the stepping functions by an
arbitrary distance oracle dist : rationals squared to rationals, and each
theorem assumes of it exactly the facts that hold of the real square root at
the points where it is consulted (nonnegativity, value on an axis, and which
side of the pull radius it falls on).
-/

/-- Cell size in pixels, the constant CELL_SIZE of the source. -/
def CELL_SIZE : ℚ := 50

/-- Pull radius in pixels, the constant PULL_DISTANCE of the source. -/
def PULL_DISTANCE : ℚ := 600

/-- Maximal pull fraction, the constant PULL_STRENGTH of the source (0.4). -/
def PULL_STRENGTH : ℚ := 2 / 5

/-- Minimal change threshold, the constant EPSILON of the source (0.01). -/
def EPSILON : ℚ := 1 / 100

/-- Math.abs on the rationals: the absolute value, written so that it
evaluates by cases on the sign. -/
def absQ (q : ℚ) : ℚ := if q < 0 then -q else q

/-- One grid point of the source's gridPoints array.  The fields x, y,
offsetX, offsetY are the record fields of the interface GridPoint.  The DOM
element is modelled by the two numbers the program stores on it: lastOx and
lastOy are the values of element.dataset ox and oy, read back through
parseFloat with default 0, written together with the translate transform.
The written transform itself always equals (lastOx, lastOy). -/
structure GridPoint where
  x : ℚ
  y : ℚ
  offsetX : ℚ
  offsetY : ℚ
  lastOx : ℚ
  lastOy : ℚ
  deriving DecidableEq, Repr

/-- The module-level mutable state of the source: the pointer coordinates
mouseX, mouseY, the previous frame's coordinates lastMouseX, lastMouseY, the
isAnimating flag, the gridPoints array, and whether a requestAnimationFrame
callback is currently pending (the live rafId). -/
structure AppState where
  mouseX : ℚ
  mouseY : ℚ
  lastMouseX : ℚ
  lastMouseY : ℚ
  isAnimating : Bool
  scheduled : Bool
  points : List GridPoint
  deriving DecidableEq, Repr

/-- Math.cos (Math.atan2 dy dx) expressed through the distance d: it equals
dx / d when d is nonzero; atan2 0 0 is 0, whose cosine is 1. -/
def cosAtan2 (dy dx d : ℚ) : ℚ := if d = 0 then 1 else dx / d

/-- Math.sin (Math.atan2 dy dx) expressed through the distance d: it equals
dy / d when d is nonzero; atan2 0 0 is 0, whose sine is 0. -/
def sinAtan2 (dy dx d : ℚ) : ℚ := if d = 0 then 0 else dy / d

/-- The per-marker target displacement of the source (lines 71 to 79):
zero when the distance is at least PULL_DISTANCE, otherwise the force
(1 - d / PULL_DISTANCE) * PULL_STRENGTH directed along atan2 dy dx and
scaled by CELL_SIZE. -/
def markerTarget (d dx dy : ℚ) : ℚ × ℚ :=
  if d < PULL_DISTANCE then
    ((cosAtan2 dy dx d) * ((1 - d / PULL_DISTANCE) * PULL_STRENGTH) * CELL_SIZE,
     (sinAtan2 dy dx d) * ((1 - d / PULL_DISTANCE) * PULL_STRENGTH) * CELL_SIZE)
  else (0, 0)

/-- Smooth approach of the source (lines 84 and 85): move twenty percent of
the way from the current offset to the target. -/
def easeAxis (offset target : ℚ) : ℚ := offset + (target - offset) * (1 / 5)

/-- Commit of one eased axis value (lines 88 to 96 of the source).  When the
marker is out of pull range (far), the eased value is decayed by 0.9 if its
own magnitude exceeds EPSILON and zeroed otherwise; in range, the eased value
is kept if its magnitude exceeds EPSILON and zeroed otherwise. -/
def commitAxis (far : Prop) [Decidable far] (n : ℚ) : ℚ :=
  if far then (if EPSILON < absQ n then n * (9 / 10) else 0)
  else (if EPSILON < absQ n then n else 0)

/-- The body of the forEach of animate (lines 66 to 108 of the source), for
one grid point.  Returns the updated point and whether a DOM write happened
for it (its contribution to anyChange).  The distance oracle dist stands for
Math.sqrt (dx * dx + dy * dy). -/
def updatePoint (dist : ℚ → ℚ → ℚ) (mouseX mouseY : ℚ) (mouseMoved : Bool)
    (p : GridPoint) : GridPoint × Bool :=
  let dx := mouseX - (p.x + CELL_SIZE / 2)
  let dy := mouseY - (p.y + CELL_SIZE / 2)
  let d := dist dx dy
  let t := markerTarget d dx dy
  if mouseMoved = true ∨ EPSILON < absQ p.offsetX ∨ EPSILON < absQ p.offsetY then
    let ox := commitAxis (PULL_DISTANCE ≤ d) (easeAxis p.offsetX t.1)
    let oy := commitAxis (PULL_DISTANCE ≤ d) (easeAxis p.offsetY t.2)
    if EPSILON < absQ (ox - p.lastOx) ∨ EPSILON < absQ (oy - p.lastOy) then
      ({ p with offsetX := ox, offsetY := oy, lastOx := ox, lastOy := oy }, true)
    else
      ({ p with offsetX := ox, offsetY := oy }, false)
  else (p, false)

/-- The mouseMoved test of animate (line 64 of the source). -/
def mouseMovedB (s : AppState) : Bool :=
  decide (EPSILON < absQ (s.mouseX - s.lastMouseX)) || decide (EPSILON < absQ (s.mouseY - s.lastMouseY))

/-- The per-point results of one animate call on state s: each grid point
together with its contribution to anyChange. -/
def stepResults (dist : ℚ → ℚ → ℚ) (s : AppState) : List (GridPoint × Bool) :=
  s.points.map (updatePoint dist s.mouseX s.mouseY (mouseMovedB s))

/-- Whether an animate call on state s commits at least one DOM write (the
final value of the anyChange accumulator, lines 63 and 106). -/
def stepAnyChange (dist : ℚ → ℚ → ℚ) (s : AppState) : Bool :=
  (stepResults dist s).any Prod.snd

/-- One animate call (lines 62 to 122 of the source): update every grid
point, record the pointer position as last, then either stop (clear
isAnimating, cancel the pending frame, schedule nothing) when no write
happened and the pointer did not move, or request the next frame. -/
def animate (dist : ℚ → ℚ → ℚ) (s : AppState) : AppState :=
  let rs := stepResults dist s
  if stepAnyChange dist s = false ∧ mouseMovedB s = false then
    { s with points := rs.map Prod.fst,
             lastMouseX := s.mouseX, lastMouseY := s.mouseY,
             isAnimating := false, scheduled := false }
  else
    { s with points := rs.map Prod.fst,
             lastMouseX := s.mouseX, lastMouseY := s.mouseY,
             scheduled := true }

/-- startAnimation (lines 128 to 133 of the source): when not animating, set
the flag and request a frame; otherwise do nothing. -/
def startAnimation (s : AppState) : AppState :=
  if s.isAnimating = false then { s with isAnimating := true, scheduled := true } else s

/-- The mousemove listener (lines 144 to 148): overwrite the pointer
coordinates with the event's and start the animation. -/
def mousemove (ex ey : ℚ) (s : AppState) : AppState :=
  startAnimation { s with mouseX := ex, mouseY := ey }

/-- The touchstart listener (lines 150 to 157): with no active touch points
the event does nothing; otherwise the first touch point's coordinates
overwrite the pointer and the animation is started. -/
def touchstart (touches : List (ℚ × ℚ)) (s : AppState) : AppState :=
  match touches with
  | [] => s
  | t :: _ => startAnimation { s with mouseX := t.1, mouseY := t.2 }

/-- Number of grid rows generated for viewport height h and cell size c:
Math.ceil (h / c) + 1, as a count of executed loop iterations (line 32). -/
def gridRowMax (h c : ℚ) : ℕ := (⌈h / c⌉ + 1).toNat

/-- Number of grid columns generated for viewport width w and cell size c:
Math.ceil (w / c) + 1, as a count of executed loop iterations (line 33). -/
def gridColMax (w c : ℚ) : ℕ := (⌈w / c⌉ + 1).toNat

/-- The marker created at loop indices (row, col) with cell size c
(lines 37 to 49): positioned at (col * c, row * c), zero displacement, and a
fresh element with no dataset entries, so its last written values read back
as 0. -/
def mkGridPoint (row col : ℕ) (c : ℚ) : GridPoint :=
  { x := col * c, y := row * c, offsetX := 0, offsetY := 0, lastOx := 0, lastOy := 0 }

/-- generateGrid (lines 31 to 52 of the source), parameterised by the
viewport size (window.innerWidth, window.innerHeight) and the cell size
(CELL_SIZE in the source): the row-major list of markers it pushes. -/
def generateGrid (w h c : ℚ) : List GridPoint :=
  (List.range (gridRowMax h c)).flatMap (fun row =>
    (List.range (gridColMax w c)).map (fun col => mkGridPoint row col c))

/-- The resize listener (lines 162 to 168 of the source): empty the grid
point array and the container, regenerate the grid at the new viewport size,
and call startAnimation when the driver is animating (a no-op then, since
isAnimating is already set; the pending frame of the running loop is kept). -/
def resize (w h : ℚ) (s : AppState) : AppState :=
  let s₁ := { s with points := generateGrid w h CELL_SIZE }
  if s₁.isAnimating = true then startAnimation s₁ else s₁

/-- One per-marker update with the pointer held fixed (mouseMoved false). -/
def updateNoMove (dist : ℚ → ℚ → ℚ) (mx my : ℚ) (p : GridPoint) : GridPoint :=
  (updatePoint dist mx my false p).1

/-- n iterations of the per-marker update with the pointer held fixed. -/
def iterUpd (dist : ℚ → ℚ → ℚ) (mx my : ℚ) (n : ℕ) (p : GridPoint) : GridPoint :=
  (updateNoMove dist mx my)^[n] p

/-- The marker p, updated repeatedly with the pointer held fixed at
(mx, my), at some step has displacement exactly (0, 0) on both axes. -/
def settlesToZero (dist : ℚ → ℚ → ℚ) (mx my : ℚ) (p : GridPoint) : Prop :=
  ∃ n : ℕ, (iterUpd dist mx my n p).offsetX = 0 ∧ (iterUpd dist mx my n p).offsetY = 0

/-- A concrete distance oracle, correct for the points on a horizontal axis
(dy = 0), where the Euclidean distance is the absolute value of dx.  Used to
instantiate theorems at concrete inputs. -/
def distAxis (dx dy : ℚ) : ℚ := if dy = 0 then absQ dx else 0

/-! ### Basic lemmas about the embedded primitives -/

theorem absQ_eq_abs (q : ℚ) : absQ q = |q| := by
  unfold absQ
  split_ifs with h
  · exact (abs_of_neg h).symm
  · exact (abs_of_nonneg (not_lt.1 h)).symm

theorem absQ_nonneg (q : ℚ) : 0 ≤ absQ q := by
  rw [absQ_eq_abs]; exact abs_nonneg q

theorem absQ_mul (a b : ℚ) : absQ (a * b) = absQ a * absQ b := by
  simp [absQ_eq_abs, abs_mul]

/-- The settle-skip fast path (line 82 of the source): with the pointer
unmoved and both displacement axes within EPSILON, the marker is left
untouched and contributes no write. -/
theorem updatePoint_skip (dist : ℚ → ℚ → ℚ) (mx my : ℚ) (p : GridPoint)
    (hx : absQ p.offsetX ≤ EPSILON) (hy : absQ p.offsetY ≤ EPSILON) :
    updatePoint dist mx my false p = (p, false) := by
  simp only [updatePoint]
  rw [if_neg]
  rintro (h | h | h)
  · exact Bool.false_ne_true h
  · exact absurd h (not_lt.2 hx)
  · exact absurd h (not_lt.2 hy)

/-- A per-marker update never changes the marker's grid position. -/
theorem updatePoint_x (dist : ℚ → ℚ → ℚ) (mx my : ℚ) (mv : Bool) (p : GridPoint) :
    ((updatePoint dist mx my mv p).1).x = p.x := by
  simp only [updatePoint]
  split_ifs <;> rfl

/-- A per-marker update never changes the marker's grid position. -/
theorem updatePoint_y (dist : ℚ → ℚ → ℚ) (mx my : ℚ) (mv : Bool) (p : GridPoint) :
    ((updatePoint dist mx my mv p).1).y = p.y := by
  simp only [updatePoint]
  split_ifs <;> rfl

/-- When the update is not skipped, the committed x displacement is the eased
value toward the target, passed through the decay and snap logic. -/
theorem updatePoint_offsetX_run (dist : ℚ → ℚ → ℚ) (mx my : ℚ) (mv : Bool) (p : GridPoint)
    (hrun : mv = true ∨ EPSILON < absQ p.offsetX ∨ EPSILON < absQ p.offsetY) :
    ((updatePoint dist mx my mv p).1).offsetX =
      commitAxis (PULL_DISTANCE ≤ dist (mx - (p.x + CELL_SIZE / 2)) (my - (p.y + CELL_SIZE / 2)))
        (easeAxis p.offsetX
          (markerTarget (dist (mx - (p.x + CELL_SIZE / 2)) (my - (p.y + CELL_SIZE / 2)))
            (mx - (p.x + CELL_SIZE / 2)) (my - (p.y + CELL_SIZE / 2))).1) := by
  simp only [updatePoint]
  rw [if_pos hrun]
  split_ifs <;> rfl

/-- When the update is not skipped, the committed y displacement is the eased
value toward the target, passed through the decay and snap logic. -/
theorem updatePoint_offsetY_run (dist : ℚ → ℚ → ℚ) (mx my : ℚ) (mv : Bool) (p : GridPoint)
    (hrun : mv = true ∨ EPSILON < absQ p.offsetX ∨ EPSILON < absQ p.offsetY) :
    ((updatePoint dist mx my mv p).1).offsetY =
      commitAxis (PULL_DISTANCE ≤ dist (mx - (p.x + CELL_SIZE / 2)) (my - (p.y + CELL_SIZE / 2)))
        (easeAxis p.offsetY
          (markerTarget (dist (mx - (p.x + CELL_SIZE / 2)) (my - (p.y + CELL_SIZE / 2)))
            (mx - (p.x + CELL_SIZE / 2)) (my - (p.y + CELL_SIZE / 2))).2) := by
  simp only [updatePoint]
  rw [if_pos hrun]
  split_ifs <;> rfl

/-- Out of pull range the target vanishes on both axes. -/
theorem markerTarget_far (d dx dy : ℚ) (h : PULL_DISTANCE ≤ d) :
    markerTarget d dx dy = (0, 0) := by
  rw [markerTarget, if_neg (not_lt.2 h)]

/-- The out-of-range branch of the commit. -/
theorem commitAxis_pos (far : Prop) [Decidable far] (h : far) (n : ℚ) :
    commitAxis far n = if EPSILON < absQ n then n * (9 / 10) else 0 := by
  rw [commitAxis, if_pos h]

/-- The in-range branch of the commit. -/
theorem commitAxis_neg (far : Prop) [Decidable far] (h : ¬far) (n : ℚ) :
    commitAxis far n = if EPSILON < absQ n then n else 0 := by
  rw [commitAxis, if_neg h]

/-- Out-of-range commit contracts the axis magnitude by at least the factor
18 / 25 (the ease times the decay). -/
theorem commitAxis_far_ease_le (far : Prop) [Decidable far] (hf : far) (o : ℚ) :
    absQ (commitAxis far (easeAxis o 0)) ≤ (18 / 25) * absQ o := by
  have he : easeAxis o 0 = o * (4 / 5) := by rw [easeAxis]; ring
  rw [commitAxis, if_pos hf]
  split_ifs with h
  · rw [he, absQ_mul, absQ_mul]
    have h45 : absQ (4 / 5 : ℚ) = 4 / 5 := by norm_num [absQ]
    have h910 : absQ (9 / 10 : ℚ) = 9 / 10 := by norm_num [absQ]
    rw [h45, h910]
    nlinarith [absQ_nonneg o]
  · have : absQ (0 : ℚ) = 0 := by norm_num [absQ]
    rw [this]
    have := absQ_nonneg o
    nlinarith

/-- A marker out of pull range whose update runs gets both axes eased toward
zero, decayed, and snapped: the committed value is the decayed eased value
when the eased magnitude exceeds EPSILON and exactly zero otherwise. -/
theorem updatePoint_far_offsets (dist : ℚ → ℚ → ℚ) (mx my : ℚ) (mv : Bool) (p : GridPoint)
    (hfar : PULL_DISTANCE ≤ dist (mx - (p.x + CELL_SIZE / 2)) (my - (p.y + CELL_SIZE / 2)))
    (hrun : mv = true ∨ EPSILON < absQ p.offsetX ∨ EPSILON < absQ p.offsetY) :
    ((updatePoint dist mx my mv p).1).offsetX =
        (if EPSILON < absQ (easeAxis p.offsetX 0) then easeAxis p.offsetX 0 * (9 / 10) else 0) ∧
    ((updatePoint dist mx my mv p).1).offsetY =
        (if EPSILON < absQ (easeAxis p.offsetY 0) then easeAxis p.offsetY 0 * (9 / 10) else 0) := by
  constructor
  · rw [updatePoint_offsetX_run dist mx my mv p hrun, markerTarget_far _ _ _ hfar]
    exact commitAxis_pos _ hfar _
  · rw [updatePoint_offsetY_run dist mx my mv p hrun, markerTarget_far _ _ _ hfar]
    exact commitAxis_pos _ hfar _

/-- Both displacement axes of a marker are within EPSILON of rest; under this
condition (and an unmoved pointer) the source skips the marker's update. -/
def inRest (p : GridPoint) : Prop :=
  absQ p.offsetX ≤ EPSILON ∧ absQ p.offsetY ≤ EPSILON

/-- One far-range committed axis contracts by at least 18 / 25. -/
theorem far_step_bound (o : ℚ) :
    absQ (if EPSILON < absQ (easeAxis o 0) then easeAxis o 0 * (9 / 10) else 0) ≤
      (18 / 25) * absQ o := by
  have h := commitAxis_far_ease_le True trivial o
  rwa [commitAxis_pos True trivial] at h

/-- A marker at rest under an unmoved pointer stays exactly as it is under
arbitrarily many steps. -/
theorem iterUpd_rest_fixed (dist : ℚ → ℚ → ℚ) (mx my : ℚ) (p : GridPoint)
    (h : inRest p) : ∀ n : ℕ, iterUpd dist mx my n p = p := by
  intro n
  induction n with
  | zero => rfl
  | succ k ih =>
      rw [iterUpd, Function.iterate_succ_apply, ← iterUpd]
      rw [show updateNoMove dist mx my p = p from
        congrArg Prod.fst (updatePoint_skip dist mx my p h.1 h.2)]
      exact ih

/-- Iterated updates never change the marker's grid position. -/
theorem iterUpd_x (dist : ℚ → ℚ → ℚ) (mx my : ℚ) (n : ℕ) (p : GridPoint) :
    (iterUpd dist mx my n p).x = p.x := by
  induction n with
  | zero => rfl
  | succ k ih =>
      rw [iterUpd, Function.iterate_succ_apply', ← iterUpd]
      rw [updateNoMove, updatePoint_x]
      exact ih

/-- Iterated updates never change the marker's grid position. -/
theorem iterUpd_y (dist : ℚ → ℚ → ℚ) (mx my : ℚ) (n : ℕ) (p : GridPoint) :
    (iterUpd dist mx my n p).y = p.y := by
  induction n with
  | zero => rfl
  | succ k ih =>
      rw [iterUpd, Function.iterate_succ_apply', ← iterUpd]
      rw [updateNoMove, updatePoint_y]
      exact ih

/-- With the pointer fixed out of pull range, each marker either has already
reached the rest zone or both its axes have contracted geometrically. -/
theorem iterUpd_far_bound (dist : ℚ → ℚ → ℚ) (mx my : ℚ) (p : GridPoint)
    (hfar : PULL_DISTANCE ≤ dist (mx - (p.x + CELL_SIZE / 2)) (my - (p.y + CELL_SIZE / 2))) :
    ∀ n : ℕ, inRest (iterUpd dist mx my n p) ∨
      (absQ (iterUpd dist mx my n p).offsetX ≤
          (18 / 25) ^ n * max (absQ p.offsetX) (absQ p.offsetY) ∧
       absQ (iterUpd dist mx my n p).offsetY ≤
          (18 / 25) ^ n * max (absQ p.offsetX) (absQ p.offsetY)) := by
  intro n
  induction n with
  | zero =>
      right
      constructor
      · rw [pow_zero, one_mul]
        exact le_max_left (absQ p.offsetX) (absQ p.offsetY)
      · rw [pow_zero, one_mul]
        exact le_max_right (absQ p.offsetX) (absQ p.offsetY)
  | succ k ih =>
      by_cases hq : inRest (iterUpd dist mx my k p)
      · left
        rw [iterUpd, Function.iterate_succ_apply', ← iterUpd]
        rw [show updateNoMove dist mx my (iterUpd dist mx my k p) = iterUpd dist mx my k p from
          congrArg Prod.fst (updatePoint_skip dist mx my _ hq.1 hq.2)]
        exact hq
      · rcases ih with ih | ih
        · exact absurd ih hq
        · right
          have hrun : (false : Bool) = true ∨
              EPSILON < absQ (iterUpd dist mx my k p).offsetX ∨
              EPSILON < absQ (iterUpd dist mx my k p).offsetY := by
            rcases not_and_or.1 hq with h | h
            · exact Or.inr (Or.inl (not_le.1 h))
            · exact Or.inr (Or.inr (not_le.1 h))
          have hfar' : PULL_DISTANCE ≤
              dist (mx - ((iterUpd dist mx my k p).x + CELL_SIZE / 2))
                   (my - ((iterUpd dist mx my k p).y + CELL_SIZE / 2)) := by
            rwa [iterUpd_x, iterUpd_y]
          have hoff := updatePoint_far_offsets dist mx my false (iterUpd dist mx my k p) hfar' hrun
          rw [iterUpd, Function.iterate_succ_apply', ← iterUpd, updateNoMove]
          rw [hoff.1, hoff.2]
          have hM : (0 : ℚ) ≤ max (absQ p.offsetX) (absQ p.offsetY) :=
            le_max_of_le_left (absQ_nonneg _)
          constructor
          · calc absQ _ ≤ (18 / 25) * absQ (iterUpd dist mx my k p).offsetX :=
                  far_step_bound _
              _ ≤ (18 / 25) * ((18 / 25) ^ k * max (absQ p.offsetX) (absQ p.offsetY)) := by
                  nlinarith [ih.1]
              _ = (18 / 25) ^ (k + 1) * max (absQ p.offsetX) (absQ p.offsetY) := by ring
          · calc absQ _ ≤ (18 / 25) * absQ (iterUpd dist mx my k p).offsetY :=
                  far_step_bound _
              _ ≤ (18 / 25) * ((18 / 25) ^ k * max (absQ p.offsetX) (absQ p.offsetY)) := by
                  nlinarith [ih.2]
              _ = (18 / 25) ^ (k + 1) * max (absQ p.offsetX) (absQ p.offsetY) := by ring

/-- With the pointer fixed out of pull range, a marker reaches the rest zone
after finitely many steps and is then left untouched forever. -/
theorem iterUpd_far_settles (dist : ℚ → ℚ → ℚ) (mx my : ℚ) (p : GridPoint)
    (hfar : PULL_DISTANCE ≤ dist (mx - (p.x + CELL_SIZE / 2)) (my - (p.y + CELL_SIZE / 2))) :
    ∃ n : ℕ, ∀ m : ℕ, n ≤ m →
      iterUpd dist mx my m p = iterUpd dist mx my n p ∧ inRest (iterUpd dist mx my m p) := by
  set M := max (absQ p.offsetX) (absQ p.offsetY) with hMdef
  have hM : 0 ≤ M := le_max_of_le_left (absQ_nonneg _)
  have hpos : (0 : ℚ) < M + 1 := by linarith
  have hεpos : (0 : ℚ) < EPSILON / (M + 1) := by
    apply div_pos _ hpos
    norm_num [EPSILON]
  obtain ⟨n, hn⟩ := exists_pow_lt_of_lt_one hεpos (show (18 / 25 : ℚ) < 1 by norm_num)
  have hbound : (18 / 25 : ℚ) ^ n * M ≤ EPSILON := by
    have h2 : (18 / 25 : ℚ) ^ n * (M + 1) < EPSILON / (M + 1) * (M + 1) :=
      mul_lt_mul_of_pos_right hn hpos
    rw [div_mul_cancel₀ _ (ne_of_gt hpos)] at h2
    have h3 : (18 / 25 : ℚ) ^ n * M ≤ (18 / 25 : ℚ) ^ n * (M + 1) :=
      mul_le_mul_of_nonneg_left (by linarith) (pow_nonneg (by norm_num) n)
    linarith
  have hrest : inRest (iterUpd dist mx my n p) := by
    rcases iterUpd_far_bound dist mx my p hfar n with h | h
    · exact h
    · exact ⟨le_trans h.1 hbound, le_trans h.2 hbound⟩
  refine ⟨n, fun m hm => ?_⟩
  obtain ⟨k, rfl⟩ := Nat.exists_eq_add_of_le hm
  have hiter : iterUpd dist mx my (n + k) p = iterUpd dist mx my k (iterUpd dist mx my n p) := by
    rw [iterUpd, iterUpd, iterUpd, Nat.add_comm, Function.iterate_add_apply]
  rw [hiter, iterUpd_rest_fixed dist mx my _ hrest k]
  exact ⟨rfl, hrest⟩

/-- With the pointer unmoved and every marker in the rest zone, a step skips
every marker, commits no write, and the driver stops: isAnimating is cleared
and no further frame is requested. -/
theorem animate_allRest_stops (dist : ℚ → ℚ → ℚ) (s : AppState)
    (hm : mouseMovedB s = false)
    (hz : ∀ q ∈ s.points, absQ q.offsetX ≤ EPSILON ∧ absQ q.offsetY ≤ EPSILON) :
    stepResults dist s = s.points.map (fun q => (q, false)) ∧
    stepAnyChange dist s = false ∧
    (animate dist s).isAnimating = false ∧ (animate dist s).scheduled = false := by
  have hres : stepResults dist s = s.points.map (fun q => (q, false)) := by
    rw [stepResults, hm]
    exact List.map_congr_left
      (fun q hq => updatePoint_skip dist s.mouseX s.mouseY q (hz q hq).1 (hz q hq).2)
  have hany : stepAnyChange dist s = false := by
    rw [stepAnyChange, hres]
    simp [List.any_map, Function.comp]
  refine ⟨hres, hany, ?_⟩
  simp only [animate]
  rw [if_pos ⟨hany, hm⟩]
  exact ⟨rfl, rfl⟩

/-! ### Claim C1 -/

/-- C1 is false as stated: with the pointer held fixed at distance 675
(at least PULL_DISTANCE) from the rest-position center (25, 25) of the
marker at grid position (0, 0), the starting displacement
(13/1000, 13/1000) never reaches (0, 0): the first step moves it to
(117/12500, 117/12500), a point the settle-skip then freezes forever
because both axes are within EPSILON.  The first step is the same whether
or not that step still sees the pointer as having moved. -/
theorem C1_counterexample :
    PULL_DISTANCE ≤ distAxis (700 - ((0 : ℚ) + CELL_SIZE / 2)) (25 - ((0 : ℚ) + CELL_SIZE / 2)) ∧
    updatePoint distAxis 700 25 true ⟨0, 0, 13/1000, 13/1000, 0, 0⟩
      = updatePoint distAxis 700 25 false ⟨0, 0, 13/1000, 13/1000, 0, 0⟩ ∧
    ¬ settlesToZero distAxis 700 25 ⟨0, 0, 13/1000, 13/1000, 0, 0⟩ := by
  refine ⟨by norm_num [distAxis, absQ, CELL_SIZE, PULL_DISTANCE], ?_, ?_⟩
  · norm_num [updatePoint, markerTarget, easeAxis, commitAxis, cosAtan2, sinAtan2,
      absQ, distAxis, CELL_SIZE, PULL_DISTANCE, PULL_STRENGTH, EPSILON]
  · rintro ⟨n, h1, h2⟩
    have hstep : updateNoMove distAxis 700 25 ⟨0, 0, 13/1000, 13/1000, 0, 0⟩ =
        ⟨0, 0, 117/12500, 117/12500, 0, 0⟩ := by
      rw [updateNoMove]
      norm_num [updatePoint, markerTarget, easeAxis, commitAxis, cosAtan2, sinAtan2,
        absQ, distAxis, CELL_SIZE, PULL_DISTANCE, PULL_STRENGTH, EPSILON]
    have hrest : inRest ⟨0, 0, 117/12500, 117/12500, 0, 0⟩ := by
      constructor <;> norm_num [absQ, EPSILON]
    cases n with
    | zero => norm_num [iterUpd] at h1
    | succ k =>
        rw [iterUpd, Function.iterate_succ_apply, hstep] at h1
        rw [show (updateNoMove distAxis 700 25)^[k] (⟨0, 0, 117/12500, 117/12500, 0, 0⟩ : GridPoint)
            = iterUpd distAxis 700 25 k ⟨0, 0, 117/12500, 117/12500, 0, 0⟩ from rfl] at h1
        rw [iterUpd_rest_fixed distAxis 700 25 _ hrest k] at h1
        norm_num at h1

/-- C1, amended: with the pointer held fixed at distance at least
PULL_DISTANCE (600 px) from the marker's rest-position center, iterating the
per-step update from any starting displacement reaches, after finitely many
steps, a displacement whose magnitude is at most EPSILON on both axes
(not necessarily exactly (0, 0)), after which the marker is never changed
again; and once every marker is within EPSILON of rest on both axes and the
pointer has not moved, the driver transitions to Idle and schedules no
further step. -/
theorem C1_amended (dist : ℚ → ℚ → ℚ) (mx my : ℚ) (p : GridPoint)
    (hfar : PULL_DISTANCE ≤ dist (mx - (p.x + CELL_SIZE / 2)) (my - (p.y + CELL_SIZE / 2))) :
    (∃ n : ℕ, ∀ m : ℕ, n ≤ m →
        absQ (iterUpd dist mx my m p).offsetX ≤ EPSILON ∧
        absQ (iterUpd dist mx my m p).offsetY ≤ EPSILON ∧
        iterUpd dist mx my (m + 1) p = iterUpd dist mx my m p) ∧
    (∀ s : AppState, mouseMovedB s = false →
        (∀ q ∈ s.points, absQ q.offsetX ≤ EPSILON ∧ absQ q.offsetY ≤ EPSILON) →
        (animate dist s).isAnimating = false ∧ (animate dist s).scheduled = false) := by
  constructor
  · obtain ⟨n, hn⟩ := iterUpd_far_settles dist mx my p hfar
    refine ⟨n, fun m hm => ?_⟩
    obtain ⟨heq, hrest⟩ := hn m hm
    obtain ⟨heq', _⟩ := hn (m + 1) (le_trans hm (Nat.le_succ m))
    exact ⟨hrest.1, hrest.2, by rw [heq', heq]⟩
  · intro s hm hz
    exact (animate_allRest_stops dist s hm hz).2.2

/-- Witness for C1_amended: the marker at grid position (0, 0) with starting
displacement (5, 5) and the pointer fixed at (700, 25), distance 675. -/
theorem C1_witness :
    PULL_DISTANCE ≤ distAxis (700 - (((⟨0, 0, 5, 5, 0, 0⟩ : GridPoint)).x + CELL_SIZE / 2))
        (25 - (((⟨0, 0, 5, 5, 0, 0⟩ : GridPoint)).y + CELL_SIZE / 2)) ∧
    ((∃ n : ℕ, ∀ m : ℕ, n ≤ m →
        absQ (iterUpd distAxis 700 25 m ⟨0, 0, 5, 5, 0, 0⟩).offsetX ≤ EPSILON ∧
        absQ (iterUpd distAxis 700 25 m ⟨0, 0, 5, 5, 0, 0⟩).offsetY ≤ EPSILON ∧
        iterUpd distAxis 700 25 (m + 1) ⟨0, 0, 5, 5, 0, 0⟩
          = iterUpd distAxis 700 25 m ⟨0, 0, 5, 5, 0, 0⟩) ∧
    (∀ s : AppState, mouseMovedB s = false →
        (∀ q ∈ s.points, absQ q.offsetX ≤ EPSILON ∧ absQ q.offsetY ≤ EPSILON) →
        (animate distAxis s).isAnimating = false ∧ (animate distAxis s).scheduled = false)) :=
  ⟨by norm_num [distAxis, absQ, CELL_SIZE, PULL_DISTANCE],
   C1_amended distAxis 700 25 ⟨0, 0, 5, 5, 0, 0⟩
     (by norm_num [distAxis, absQ, CELL_SIZE, PULL_DISTANCE])⟩

/-! ### Claim C2 -/

/-- C2 is false as stated: the snap test of the source compares EPSILON with
the eased value before decay, not with the decayed value.  Concretely, for
the marker at grid position (0, 0) with displacement (21/1600, 0) and the
pointer fixed at (700, 25) (distance 675, out of range, update not skipped
since the step sees pointer movement), the eased x value is 21/2000 = 0.0105
and the decayed value 189/20000 = 0.00945 has magnitude below EPSILON, yet
the committed axis is 189/20000, not 0. -/
theorem C2_counterexample :
    PULL_DISTANCE ≤ distAxis (700 - ((0 : ℚ) + CELL_SIZE / 2)) (25 - ((0 : ℚ) + CELL_SIZE / 2)) ∧
    absQ ((updatePoint distAxis 700 25 true ⟨0, 0, 21/1600, 0, 0, 0⟩).1).offsetX < EPSILON ∧
    ((updatePoint distAxis 700 25 true ⟨0, 0, 21/1600, 0, 0, 0⟩).1).offsetX ≠ 0 := by
  refine ⟨by norm_num [distAxis, absQ, CELL_SIZE, PULL_DISTANCE], ?_, ?_⟩ <;>
    norm_num [updatePoint, markerTarget, easeAxis, commitAxis, cosAtan2, sinAtan2,
      absQ, distAxis, CELL_SIZE, PULL_DISTANCE, PULL_STRENGTH, EPSILON]

/-- C2, amended: in every step, for every marker whose distance to the
pointer is at least PULL_DISTANCE (600 px) and whose update is not skipped,
the new displacement on each axis equals the eased value
offset + (0 - offset) * 0.2 multiplied by the decay factor 0.9, except that
if the magnitude of the eased value (before decay) does not exceed EPSILON
(0.01) the axis is set to exactly 0. -/
theorem C2_amended (dist : ℚ → ℚ → ℚ) (mx my : ℚ) (mv : Bool) (p : GridPoint)
    (hfar : PULL_DISTANCE ≤ dist (mx - (p.x + CELL_SIZE / 2)) (my - (p.y + CELL_SIZE / 2)))
    (hrun : mv = true ∨ EPSILON < absQ p.offsetX ∨ EPSILON < absQ p.offsetY) :
    ((updatePoint dist mx my mv p).1).offsetX =
        (if EPSILON < absQ (p.offsetX + (0 - p.offsetX) * (1 / 5))
         then (p.offsetX + (0 - p.offsetX) * (1 / 5)) * (9 / 10) else 0) ∧
    ((updatePoint dist mx my mv p).1).offsetY =
        (if EPSILON < absQ (p.offsetY + (0 - p.offsetY) * (1 / 5))
         then (p.offsetY + (0 - p.offsetY) * (1 / 5)) * (9 / 10) else 0) := by
  have h := updatePoint_far_offsets dist mx my mv p hfar hrun
  rw [easeAxis, easeAxis] at h
  exact h

/-- Witness for C2_amended: the marker at grid position (0, 0) with
displacement (4, 0) and the pointer fixed at (700, 25), distance 675; the
eased x value 16/5 exceeds EPSILON, so the new x displacement is the decayed
value 72/25, and the y axis snaps to 0. -/
theorem C2_witness :
    (PULL_DISTANCE ≤ distAxis (700 - (((⟨0, 0, 4, 0, 0, 0⟩ : GridPoint)).x + CELL_SIZE / 2))
        (25 - (((⟨0, 0, 4, 0, 0, 0⟩ : GridPoint)).y + CELL_SIZE / 2)) ∧
     ((true : Bool) = true ∨ EPSILON < absQ ((⟨0, 0, 4, 0, 0, 0⟩ : GridPoint)).offsetX ∨
        EPSILON < absQ ((⟨0, 0, 4, 0, 0, 0⟩ : GridPoint)).offsetY)) ∧
    (((updatePoint distAxis 700 25 true ⟨0, 0, 4, 0, 0, 0⟩).1).offsetX =
        (if EPSILON < absQ ((4 : ℚ) + (0 - 4) * (1 / 5))
         then ((4 : ℚ) + (0 - 4) * (1 / 5)) * (9 / 10) else 0) ∧
     ((updatePoint distAxis 700 25 true ⟨0, 0, 4, 0, 0, 0⟩).1).offsetY =
        (if EPSILON < absQ ((0 : ℚ) + (0 - 0) * (1 / 5))
         then ((0 : ℚ) + (0 - 0) * (1 / 5)) * (9 / 10) else 0)) :=
  ⟨⟨by norm_num [distAxis, absQ, CELL_SIZE, PULL_DISTANCE], Or.inl rfl⟩,
   C2_amended distAxis 700 25 true ⟨0, 0, 4, 0, 0, 0⟩
     (by norm_num [distAxis, absQ, CELL_SIZE, PULL_DISTANCE]) (Or.inl rfl)⟩

/-! ### Claim C3 -/

/-- The grid holds exactly rows times columns markers. -/
theorem generateGrid_length (w h c : ℚ) :
    (generateGrid w h c).length = gridRowMax h c * gridColMax w c := by
  rw [generateGrid]
  induction gridRowMax h c with
  | zero => simp
  | succ k ih =>
      rw [List.range_succ, List.flatMap_append, List.length_append, ih]
      simp [Nat.succ_mul]

/-- For a nonnegative viewport height and a positive cell size, the number of
generated rows is the ceiling of h / c plus one. -/
theorem gridRowMax_cast (h c : ℚ) (hh : 0 ≤ h) (hc : 0 < c) :
    (gridRowMax h c : ℤ) = ⌈h / c⌉ + 1 := by
  rw [gridRowMax, Int.toNat_of_nonneg]
  have : (0 : ℤ) ≤ ⌈h / c⌉ := Int.ceil_nonneg (div_nonneg hh hc.le)
  linarith

/-- For a nonnegative viewport width and a positive cell size, the number of
generated columns is the ceiling of w / c plus one. -/
theorem gridColMax_cast (w c : ℚ) (hw : 0 ≤ w) (hc : 0 < c) :
    (gridColMax w c : ℤ) = ⌈w / c⌉ + 1 := by
  rw [gridColMax, Int.toNat_of_nonneg]
  have : (0 : ℤ) ≤ ⌈w / c⌉ := Int.ceil_nonneg (div_nonneg hw hc.le)
  linarith

/-- Every generated marker comes from loop indices (row, col) within the
bounds and sits at (col * c, row * c) with zero displacement. -/
theorem generateGrid_mem (w h c : ℚ) (p : GridPoint) (hp : p ∈ generateGrid w h c) :
    ∃ row col : ℕ, row < gridRowMax h c ∧ col < gridColMax w c ∧ p = mkGridPoint row col c := by
  rw [generateGrid, List.mem_flatMap] at hp
  obtain ⟨row, hrow, hp⟩ := hp
  rw [List.mem_map] at hp
  obtain ⟨col, hcol, rfl⟩ := hp
  exact ⟨row, col, List.mem_range.1 hrow, List.mem_range.1 hcol, rfl⟩

/-- C3: for every viewport width w, height h (nonnegative) and cell size c
(positive), generateGrid creates ceil(h/c)+1 rows and ceil(w/c)+1 columns of
markers, the marker count is their product, and every marker sits at
(col * c, row * c) with zero displacement; in particular for w = 1000,
h = 800, c = 50 it creates 17 rows, 21 columns and 357 markers. -/
theorem C3 :
    (∀ w h c : ℚ, 0 ≤ w → 0 ≤ h → 0 < c →
        ((generateGrid w h c).length : ℤ) = (⌈h / c⌉ + 1) * (⌈w / c⌉ + 1) ∧
        ∀ p ∈ generateGrid w h c, ∃ row col : ℕ,
          row < gridRowMax h c ∧ col < gridColMax w c ∧ p = mkGridPoint row col c) ∧
    gridRowMax 800 50 = 17 ∧ gridColMax 1000 50 = 21 ∧
    (generateGrid 1000 800 50).length = 357 := by
  have hrow : gridRowMax 800 50 = 17 := by
    rw [gridRowMax, show (800 : ℚ) / 50 = ((16 : ℤ) : ℚ) by norm_num, Int.ceil_intCast]
    rfl
  have hcol : gridColMax 1000 50 = 21 := by
    rw [gridColMax, show (1000 : ℚ) / 50 = ((20 : ℤ) : ℚ) by norm_num, Int.ceil_intCast]
    rfl
  refine ⟨fun w h c hw hh hc => ⟨?_, fun p hp => generateGrid_mem w h c p hp⟩, hrow, hcol, ?_⟩
  · rw [generateGrid_length, Nat.cast_mul, gridRowMax_cast h c hh hc, gridColMax_cast w c hw hc]
  · rw [generateGrid_length, hrow, hcol]

/-- Witness for C3 at the concrete scenario of the specification: viewport
1000 by 800 with cell size 50. -/
theorem C3_witness :
    ((0 : ℚ) ≤ 1000 ∧ (0 : ℚ) ≤ 800 ∧ (0 : ℚ) < 50) ∧
    ((generateGrid 1000 800 50).length : ℤ) = (⌈(800 : ℚ) / 50⌉ + 1) * (⌈(1000 : ℚ) / 50⌉ + 1) ∧
    ∀ p ∈ generateGrid 1000 800 50, ∃ row col : ℕ,
      row < gridRowMax 800 50 ∧ col < gridColMax 1000 50 ∧ p = mkGridPoint row col 50 :=
  ⟨⟨by norm_num, by norm_num, by norm_num⟩,
   (C3.1 1000 800 50 (by norm_num) (by norm_num) (by norm_num)).1,
   (C3.1 1000 800 50 (by norm_num) (by norm_num) (by norm_num)).2⟩

/-! ### Claim C4 -/

/-- At distance zero the target is the full pull along the x axis: the angle
atan2 0 0 is 0, so the direction is (1, 0) and the magnitude is
PULL_STRENGTH * CELL_SIZE. -/
theorem markerTarget_center : markerTarget 0 0 0 = (PULL_STRENGTH * CELL_SIZE, 0) := by
  norm_num [markerTarget, cosAtan2, sinAtan2, PULL_DISTANCE]

/-- C4: with the pointer exactly at a marker's rest-position center (distance
zero, where the square root of 0 is 0) and the marker starting at zero
displacement, the first step with the pointer considered moved commits
displacement (4, 0): the eased x value 0.2 * 0.4 * 50 = 4, and 0 on the y
axis. -/
theorem C4 (dist : ℚ → ℚ → ℚ) (h0 : dist 0 0 = 0) (p : GridPoint)
    (hx : p.offsetX = 0) (hy : p.offsetY = 0) :
    ((updatePoint dist (p.x + CELL_SIZE / 2) (p.y + CELL_SIZE / 2) true p).1).offsetX = 4 ∧
    ((updatePoint dist (p.x + CELL_SIZE / 2) (p.y + CELL_SIZE / 2) true p).1).offsetY = 0 := by
  have hdx : p.x + CELL_SIZE / 2 - (p.x + CELL_SIZE / 2) = 0 := by ring
  have hdy : p.y + CELL_SIZE / 2 - (p.y + CELL_SIZE / 2) = 0 := by ring
  have hfarneg : ¬(PULL_DISTANCE ≤ (0 : ℚ)) := by norm_num [PULL_DISTANCE]
  constructor
  · rw [updatePoint_offsetX_run dist _ _ true p (Or.inl rfl), hdx, hdy, h0, markerTarget_center,
      hx, commitAxis_neg _ hfarneg]
    norm_num [easeAxis, absQ, EPSILON, PULL_STRENGTH, CELL_SIZE]
  · rw [updatePoint_offsetY_run dist _ _ true p (Or.inl rfl), hdx, hdy, h0, markerTarget_center,
      hy, commitAxis_neg _ hfarneg]
    norm_num [easeAxis, absQ, EPSILON]

/-- Witness for C4: the marker at grid position (0, 0) at rest and the
pointer at its center (25, 25). -/
theorem C4_witness :
    (distAxis 0 0 = 0 ∧
     ((⟨0, 0, 0, 0, 0, 0⟩ : GridPoint)).offsetX = 0 ∧
     ((⟨0, 0, 0, 0, 0, 0⟩ : GridPoint)).offsetY = 0) ∧
    ((updatePoint distAxis (((⟨0, 0, 0, 0, 0, 0⟩ : GridPoint)).x + CELL_SIZE / 2)
        (((⟨0, 0, 0, 0, 0, 0⟩ : GridPoint)).y + CELL_SIZE / 2) true
        ⟨0, 0, 0, 0, 0, 0⟩).1).offsetX = 4 ∧
    ((updatePoint distAxis (((⟨0, 0, 0, 0, 0, 0⟩ : GridPoint)).x + CELL_SIZE / 2)
        (((⟨0, 0, 0, 0, 0, 0⟩ : GridPoint)).y + CELL_SIZE / 2) true
        ⟨0, 0, 0, 0, 0, 0⟩).1).offsetY = 0 :=
  ⟨⟨by norm_num [distAxis, absQ], rfl, rfl⟩,
   (C4 distAxis (by norm_num [distAxis, absQ]) ⟨0, 0, 0, 0, 0, 0⟩ rfl rfl).1,
   (C4 distAxis (by norm_num [distAxis, absQ]) ⟨0, 0, 0, 0, 0, 0⟩ rfl rfl).2⟩

/-! ### Claim C5 -/

/-- C5: a step of the running driver clears isAnimating and schedules no
further frame exactly when it committed no DOM write and the pointer did not
move since the last step; in every other case the driver stays animating and
exactly the next frame is requested. -/
theorem C5 (dist : ℚ → ℚ → ℚ) (s : AppState) (hrun : s.isAnimating = true) :
    (((animate dist s).isAnimating = false ∧ (animate dist s).scheduled = false) ↔
        (stepAnyChange dist s = false ∧ mouseMovedB s = false)) ∧
    (¬(stepAnyChange dist s = false ∧ mouseMovedB s = false) →
        (animate dist s).isAnimating = true ∧ (animate dist s).scheduled = true) := by
  simp only [animate]
  by_cases h : stepAnyChange dist s = false ∧ mouseMovedB s = false
  · rw [if_pos h]
    exact ⟨⟨fun _ => h, fun _ => ⟨rfl, rfl⟩⟩, fun hc => absurd h hc⟩
  · rw [if_neg h]
    constructor
    · constructor
      · intro hc
        have hfalse : s.isAnimating = false := hc.1
        rw [hrun] at hfalse
        exact absurd hfalse (by decide)
      · intro hc
        exact absurd hc h
    · intro _
      exact ⟨hrun, rfl⟩

/-- Witness for C5: a running driver with an empty grid and an unmoved
pointer at the origin. -/
theorem C5_witness :
    (⟨0, 0, 0, 0, true, true, []⟩ : AppState).isAnimating = true ∧
    ((((animate distAxis ⟨0, 0, 0, 0, true, true, []⟩).isAnimating = false ∧
        (animate distAxis ⟨0, 0, 0, 0, true, true, []⟩).scheduled = false) ↔
       (stepAnyChange distAxis ⟨0, 0, 0, 0, true, true, []⟩ = false ∧
        mouseMovedB ⟨0, 0, 0, 0, true, true, []⟩ = false)) ∧
     (¬(stepAnyChange distAxis ⟨0, 0, 0, 0, true, true, []⟩ = false ∧
        mouseMovedB ⟨0, 0, 0, 0, true, true, []⟩ = false) →
       (animate distAxis ⟨0, 0, 0, 0, true, true, []⟩).isAnimating = true ∧
       (animate distAxis ⟨0, 0, 0, 0, true, true, []⟩).scheduled = true)) :=
  ⟨rfl, C5 distAxis ⟨0, 0, 0, 0, true, true, []⟩ rfl⟩

/-! ### Claim C6 -/

/-- absQ of a nonnegative rational is the rational itself. -/
theorem absQ_of_nonneg (q : ℚ) (h : 0 ≤ q) : absQ q = q := by
  rw [absQ_eq_abs]
  exact abs_of_nonneg h

/-- The trajectory of one marker across successive animate steps with the
pointer held fixed at (mx, my): the first step still sees the pointer as
having moved (it just arrived there), later steps do not. -/
def holdTraj (dist : ℚ → ℚ → ℚ) (mx my : ℚ) (p : GridPoint) : ℕ → GridPoint
  | 0 => p
  | n + 1 => (updatePoint dist mx my (decide (n = 0)) (holdTraj dist mx my p n)).1

/-- One non-skipped update of a marker whose center coincides with the
pointer, with a nonnegative x displacement and zero y displacement: the new
x displacement is the ease toward the full pull PULL_STRENGTH * CELL_SIZE,
the y axis stays 0. -/
theorem updatePoint_center_offsets (dist : ℚ → ℚ → ℚ) (h0 : dist 0 0 = 0) (mv : Bool)
    (q : GridPoint) (hqy : q.offsetY = 0) (hqx : 0 ≤ q.offsetX)
    (hrun : mv = true ∨ EPSILON < absQ q.offsetX ∨ EPSILON < absQ q.offsetY) :
    ((updatePoint dist (q.x + CELL_SIZE / 2) (q.y + CELL_SIZE / 2) mv q).1).offsetX =
        easeAxis q.offsetX (PULL_STRENGTH * CELL_SIZE) ∧
    ((updatePoint dist (q.x + CELL_SIZE / 2) (q.y + CELL_SIZE / 2) mv q).1).offsetY = 0 := by
  have hdx : q.x + CELL_SIZE / 2 - (q.x + CELL_SIZE / 2) = 0 := by ring
  have hdy : q.y + CELL_SIZE / 2 - (q.y + CELL_SIZE / 2) = 0 := by ring
  have hfarneg : ¬(PULL_DISTANCE ≤ (0 : ℚ)) := by norm_num [PULL_DISTANCE]
  have heage : 4 ≤ easeAxis q.offsetX (PULL_STRENGTH * CELL_SIZE) := by
    rw [easeAxis]
    norm_num [PULL_STRENGTH, CELL_SIZE]
    linarith
  constructor
  · rw [updatePoint_offsetX_run dist _ _ mv q hrun, hdx, hdy, h0, markerTarget_center,
      commitAxis_neg _ hfarneg]
    rw [if_pos]
    rw [absQ_of_nonneg _ (by linarith)]
    norm_num [EPSILON]
    linarith
  · rw [updatePoint_offsetY_run dist _ _ mv q hrun, hdx, hdy, h0, markerTarget_center,
      commitAxis_neg _ hfarneg, hqy]
    rw [if_neg]
    norm_num [easeAxis, absQ, EPSILON]

/-- Closed form of the trajectory under a pointer held at the marker's
center, starting from rest: the x displacement after n steps is
PULL_STRENGTH * CELL_SIZE * (1 - (4/5) ^ n), the y displacement stays 0, and
the grid position never changes. -/
theorem holdTraj_center_closed (dist : ℚ → ℚ → ℚ) (h0 : dist 0 0 = 0) (p : GridPoint)
    (hx : p.offsetX = 0) (hy : p.offsetY = 0) :
    ∀ n : ℕ,
      (holdTraj dist (p.x + CELL_SIZE / 2) (p.y + CELL_SIZE / 2) p n).x = p.x ∧
      (holdTraj dist (p.x + CELL_SIZE / 2) (p.y + CELL_SIZE / 2) p n).y = p.y ∧
      (holdTraj dist (p.x + CELL_SIZE / 2) (p.y + CELL_SIZE / 2) p n).offsetY = 0 ∧
      (holdTraj dist (p.x + CELL_SIZE / 2) (p.y + CELL_SIZE / 2) p n).offsetX =
        PULL_STRENGTH * CELL_SIZE - PULL_STRENGTH * CELL_SIZE * (4 / 5) ^ n := by
  intro n
  induction n with
  | zero =>
      refine ⟨rfl, rfl, hy, ?_⟩
      show p.offsetX = _
      rw [hx, pow_zero]
      ring
  | succ k ih =>
      obtain ⟨ihx, ihy, ihoy, ihox⟩ := ih
      have hpow1 : ((4 : ℚ) / 5) ^ k ≤ 1 :=
        pow_le_one₀ (by norm_num) (by norm_num)
      have hnonneg : 0 ≤ (holdTraj dist (p.x + CELL_SIZE / 2) (p.y + CELL_SIZE / 2) p k).offsetX := by
        rw [ihox]
        norm_num [PULL_STRENGTH, CELL_SIZE]
        linarith
      have hrun : (decide (k = 0)) = true ∨
          EPSILON < absQ (holdTraj dist (p.x + CELL_SIZE / 2) (p.y + CELL_SIZE / 2) p k).offsetX ∨
          EPSILON < absQ (holdTraj dist (p.x + CELL_SIZE / 2) (p.y + CELL_SIZE / 2) p k).offsetY := by
        cases k with
        | zero => exact Or.inl (by decide)
        | succ j =>
            refine Or.inr (Or.inl ?_)
            have hpows : ((4 : ℚ) / 5) ^ (j + 1) ≤ 4 / 5 :=
              pow_le_of_le_one (by norm_num) (by norm_num) (Nat.succ_ne_zero j)
            rw [absQ_of_nonneg _ hnonneg, ihox]
            norm_num [PULL_STRENGTH, CELL_SIZE, EPSILON]
            nlinarith
      have hstep := updatePoint_center_offsets dist h0 (decide (k = 0))
        (holdTraj dist (p.x + CELL_SIZE / 2) (p.y + CELL_SIZE / 2) p k) ihoy hnonneg hrun
      rw [ihx, ihy] at hstep
      simp only [holdTraj]
      refine ⟨?_, ?_, hstep.2, ?_⟩
      · rw [updatePoint_x]
        exact ihx
      · rw [updatePoint_y]
        exact ihy
      · rw [hstep.1, ihox, easeAxis, pow_succ]
        ring

/-- C6: with the pointer held fixed exactly at a marker's rest-position
center, starting from rest, the marker's displacement magnitude strictly
increases step over step, stays strictly below
PULL_STRENGTH * CELL_SIZE = 20 px, and converges to it: the remaining gap
after n steps is exactly 20 * (4/5) ^ n. -/
theorem C6 (dist : ℚ → ℚ → ℚ) (h0 : dist 0 0 = 0) (p : GridPoint)
    (hx : p.offsetX = 0) (hy : p.offsetY = 0) :
    ∀ n : ℕ,
      (holdTraj dist (p.x + CELL_SIZE / 2) (p.y + CELL_SIZE / 2) p n).offsetY = 0 ∧
      absQ (holdTraj dist (p.x + CELL_SIZE / 2) (p.y + CELL_SIZE / 2) p n).offsetX <
        absQ (holdTraj dist (p.x + CELL_SIZE / 2) (p.y + CELL_SIZE / 2) p (n + 1)).offsetX ∧
      absQ (holdTraj dist (p.x + CELL_SIZE / 2) (p.y + CELL_SIZE / 2) p n).offsetX <
        PULL_STRENGTH * CELL_SIZE ∧
      PULL_STRENGTH * CELL_SIZE -
          (holdTraj dist (p.x + CELL_SIZE / 2) (p.y + CELL_SIZE / 2) p n).offsetX =
        PULL_STRENGTH * CELL_SIZE * (4 / 5) ^ n := by
  intro n
  have hcn := holdTraj_center_closed dist h0 p hx hy n
  have hcn1 := holdTraj_center_closed dist h0 p hx hy (n + 1)
  have hn := hcn.2.2.2
  have hn1 := hcn1.2.2.2
  have hpown : ((4 : ℚ) / 5) ^ n ≤ 1 := pow_le_one₀ (by norm_num) (by norm_num)
  have hpowpos : (0 : ℚ) < (4 / 5) ^ n := pow_pos (by norm_num) n
  have hpowlt : ((4 : ℚ) / 5) ^ (n + 1) < (4 / 5) ^ n := by
    rw [pow_succ]
    nlinarith
  have hPSCS : PULL_STRENGTH * CELL_SIZE = 20 := by norm_num [PULL_STRENGTH, CELL_SIZE]
  rw [hPSCS] at hn hn1
  have hpown1 : ((4 : ℚ) / 5) ^ (n + 1) ≤ 1 := pow_le_one₀ (by norm_num) (by norm_num)
  have hnn : 0 ≤ (holdTraj dist (p.x + CELL_SIZE / 2) (p.y + CELL_SIZE / 2) p n).offsetX := by
    linarith
  have hnn1 : 0 ≤ (holdTraj dist (p.x + CELL_SIZE / 2) (p.y + CELL_SIZE / 2) p (n + 1)).offsetX := by
    linarith
  refine ⟨hcn.2.2.1, ?_, ?_, ?_⟩
  · rw [absQ_of_nonneg _ hnn, absQ_of_nonneg _ hnn1]
    linarith
  · rw [absQ_of_nonneg _ hnn, hPSCS]
    linarith
  · rw [hPSCS]
    linarith

/-- Witness for C6: the marker at grid position (0, 0) at rest with the
pointer held at its center (25, 25). -/
theorem C6_witness :
    (distAxis 0 0 = 0 ∧
     ((⟨0, 0, 0, 0, 0, 0⟩ : GridPoint)).offsetX = 0 ∧
     ((⟨0, 0, 0, 0, 0, 0⟩ : GridPoint)).offsetY = 0) ∧
    (∀ n : ℕ,
      (holdTraj distAxis (((⟨0, 0, 0, 0, 0, 0⟩ : GridPoint)).x + CELL_SIZE / 2)
          (((⟨0, 0, 0, 0, 0, 0⟩ : GridPoint)).y + CELL_SIZE / 2) ⟨0, 0, 0, 0, 0, 0⟩ n).offsetY = 0 ∧
      absQ (holdTraj distAxis (((⟨0, 0, 0, 0, 0, 0⟩ : GridPoint)).x + CELL_SIZE / 2)
          (((⟨0, 0, 0, 0, 0, 0⟩ : GridPoint)).y + CELL_SIZE / 2) ⟨0, 0, 0, 0, 0, 0⟩ n).offsetX <
        absQ (holdTraj distAxis (((⟨0, 0, 0, 0, 0, 0⟩ : GridPoint)).x + CELL_SIZE / 2)
          (((⟨0, 0, 0, 0, 0, 0⟩ : GridPoint)).y + CELL_SIZE / 2) ⟨0, 0, 0, 0, 0, 0⟩ (n + 1)).offsetX ∧
      absQ (holdTraj distAxis (((⟨0, 0, 0, 0, 0, 0⟩ : GridPoint)).x + CELL_SIZE / 2)
          (((⟨0, 0, 0, 0, 0, 0⟩ : GridPoint)).y + CELL_SIZE / 2) ⟨0, 0, 0, 0, 0, 0⟩ n).offsetX <
        PULL_STRENGTH * CELL_SIZE ∧
      PULL_STRENGTH * CELL_SIZE -
          (holdTraj distAxis (((⟨0, 0, 0, 0, 0, 0⟩ : GridPoint)).x + CELL_SIZE / 2)
            (((⟨0, 0, 0, 0, 0, 0⟩ : GridPoint)).y + CELL_SIZE / 2) ⟨0, 0, 0, 0, 0, 0⟩ n).offsetX =
        PULL_STRENGTH * CELL_SIZE * (4 / 5) ^ n) :=
  ⟨⟨by norm_num [distAxis, absQ], rfl, rfl⟩,
   C6 distAxis (by norm_num [distAxis, absQ]) ⟨0, 0, 0, 0, 0, 0⟩ rfl rfl⟩

/-! ### Claim C7 -/

/-- C7 is false as stated: closeness to the last-written value does not
suppress writes.  With the pointer stationary at (25, 25), the single marker
at grid position (0, 0) has displacement (4, 0) equal to its last-written
value (difference 0, within EPSILON on both axes), yet the step eases it
toward the in-range target and commits a write. -/
theorem C7_counterexample :
    mouseMovedB ⟨25, 25, 25, 25, true, true, [⟨0, 0, 4, 0, 4, 0⟩]⟩ = false ∧
    absQ (((⟨0, 0, 4, 0, 4, 0⟩ : GridPoint)).offsetX -
        ((⟨0, 0, 4, 0, 4, 0⟩ : GridPoint)).lastOx) ≤ EPSILON ∧
    absQ (((⟨0, 0, 4, 0, 4, 0⟩ : GridPoint)).offsetY -
        ((⟨0, 0, 4, 0, 4, 0⟩ : GridPoint)).lastOy) ≤ EPSILON ∧
    stepAnyChange distAxis ⟨25, 25, 25, 25, true, true, [⟨0, 0, 4, 0, 4, 0⟩]⟩ = true := by
  refine ⟨?_, ?_, ?_, ?_⟩
  · norm_num [mouseMovedB, absQ, EPSILON]
  · norm_num [absQ, EPSILON]
  · norm_num [absQ, EPSILON]
  · norm_num [stepAnyChange, stepResults, mouseMovedB, updatePoint, markerTarget,
      easeAxis, commitAxis, cosAtan2, sinAtan2, absQ, distAxis,
      CELL_SIZE, PULL_DISTANCE, PULL_STRENGTH, EPSILON]

/-- C7, amended: if the pointer has not moved since the last step and every
marker's current displacement is within EPSILON of zero (rest) on both axes,
a step performs no visual write to any marker and leaves every marker
unchanged. -/
theorem C7_amended (dist : ℚ → ℚ → ℚ) (s : AppState)
    (hm : mouseMovedB s = false)
    (hz : ∀ q ∈ s.points, absQ q.offsetX ≤ EPSILON ∧ absQ q.offsetY ≤ EPSILON) :
    stepResults dist s = s.points.map (fun q => (q, false)) ∧
    stepAnyChange dist s = false :=
  ⟨(animate_allRest_stops dist s hm hz).1, (animate_allRest_stops dist s hm hz).2.1⟩

/-- Witness for C7_amended: a stationary pointer at (25, 25) over one marker
with displacement (1/200, 0), within EPSILON of rest. -/
theorem C7_witness :
    (mouseMovedB ⟨25, 25, 25, 25, true, true, [⟨0, 0, 1/200, 0, 0, 0⟩]⟩ = false ∧
     (∀ q ∈ (⟨25, 25, 25, 25, true, true, [⟨0, 0, 1/200, 0, 0, 0⟩]⟩ : AppState).points,
        absQ q.offsetX ≤ EPSILON ∧ absQ q.offsetY ≤ EPSILON)) ∧
    (stepResults distAxis ⟨25, 25, 25, 25, true, true, [⟨0, 0, 1/200, 0, 0, 0⟩]⟩ =
        (⟨25, 25, 25, 25, true, true, [⟨0, 0, 1/200, 0, 0, 0⟩]⟩ : AppState).points.map
          (fun q => (q, false)) ∧
     stepAnyChange distAxis ⟨25, 25, 25, 25, true, true, [⟨0, 0, 1/200, 0, 0, 0⟩]⟩ = false) :=
  ⟨⟨by norm_num [mouseMovedB, absQ, EPSILON], by
      intro q hq
      have hq' : q = ⟨0, 0, 1/200, 0, 0, 0⟩ := List.mem_singleton.mp hq
      subst hq'
      constructor <;> norm_num [absQ, EPSILON]⟩,
   C7_amended distAxis ⟨25, 25, 25, 25, true, true, [⟨0, 0, 1/200, 0, 0, 0⟩]⟩
     (by norm_num [mouseMovedB, absQ, EPSILON])
     (by
      intro q hq
      have hq' : q = ⟨0, 0, 1/200, 0, 0, 0⟩ := List.mem_singleton.mp hq
      subst hq'
      constructor <;> norm_num [absQ, EPSILON])⟩

/-! ### Claim C8 -/

/-- C8: when a resize fires while the driver is running, the old marker
collection is discarded wholesale and replaced by a freshly generated grid
at the new viewport dimensions, the driver stays running with its pending
step still scheduled, and subsequent steps iterate exactly the
new-generation markers. -/
theorem C8 (w h : ℚ) (s : AppState) (hrun : s.isAnimating = true) (hsch : s.scheduled = true) :
    (resize w h s).points = generateGrid w h CELL_SIZE ∧
    (resize w h s).isAnimating = true ∧
    (resize w h s).scheduled = true ∧
    ∀ dist : ℚ → ℚ → ℚ, stepResults dist (resize w h s) =
      (generateGrid w h CELL_SIZE).map
        (updatePoint dist s.mouseX s.mouseY (mouseMovedB (resize w h s))) := by
  have h1 : ({ s with points := generateGrid w h CELL_SIZE } : AppState).isAnimating = true := hrun
  simp only [resize]
  rw [if_pos h1, startAnimation, if_neg (by
    intro hf
    rw [h1] at hf
    exact absurd hf (by decide))]
  exact ⟨rfl, hrun, hsch, fun dist => rfl⟩

/-- Witness for C8: a running driver with a pending step, pointer at the
origin, resized to a 100 by 100 viewport. -/
theorem C8_witness :
    ((⟨0, 0, 0, 0, true, true, []⟩ : AppState).isAnimating = true ∧
     (⟨0, 0, 0, 0, true, true, []⟩ : AppState).scheduled = true) ∧
    ((resize 100 100 ⟨0, 0, 0, 0, true, true, []⟩).points = generateGrid 100 100 CELL_SIZE ∧
     (resize 100 100 ⟨0, 0, 0, 0, true, true, []⟩).isAnimating = true ∧
     (resize 100 100 ⟨0, 0, 0, 0, true, true, []⟩).scheduled = true ∧
     ∀ dist : ℚ → ℚ → ℚ, stepResults dist (resize 100 100 ⟨0, 0, 0, 0, true, true, []⟩) =
       (generateGrid 100 100 CELL_SIZE).map
         (updatePoint dist (⟨0, 0, 0, 0, true, true, []⟩ : AppState).mouseX
           (⟨0, 0, 0, 0, true, true, []⟩ : AppState).mouseY
           (mouseMovedB (resize 100 100 ⟨0, 0, 0, 0, true, true, []⟩)))) :=
  ⟨⟨rfl, rfl⟩, C8 100 100 ⟨0, 0, 0, 0, true, true, []⟩ rfl rfl⟩

/-! ### Claim C9 -/

/-- C9: a touch-start event with no active touch points leaves the whole
state unchanged (in particular the pointer coordinates) and does not trigger
the driver; with at least one touch point, the first point's coordinates
overwrite the pointer and the driver is requested to run. -/
theorem C9 :
    (∀ s : AppState, touchstart [] s = s) ∧
    (∀ (t : ℚ × ℚ) (ts : List (ℚ × ℚ)) (s : AppState),
        (touchstart (t :: ts) s).mouseX = t.1 ∧
        (touchstart (t :: ts) s).mouseY = t.2 ∧
        (touchstart (t :: ts) s).isAnimating = true) := by
  refine ⟨fun s => rfl, fun t ts s => ?_⟩
  simp only [touchstart, startAnimation]
  by_cases hb : ({ s with mouseX := t.1, mouseY := t.2 } : AppState).isAnimating = false
  · rw [if_pos hb]
    exact ⟨rfl, rfl, rfl⟩
  · rw [if_neg hb]
    refine ⟨rfl, rfl, ?_⟩
    cases hv : ({ s with mouseX := t.1, mouseY := t.2 } : AppState).isAnimating
    · exact absurd hv hb
    · rfl

/-! ### Claim C10 -/

/-- C10: a step considers the pointer moved exactly when the absolute
difference to the previous step's coordinates exceeds EPSILON (0.01 px) on
at least one axis; under movements of at most EPSILON on both axes the step
treats the pointer as unmoved, markers at rest (within EPSILON on both axes)
are skipped unchanged, and if additionally no write is committed, the driver
transitions to Idle and schedules no further step. -/
theorem C10 (dist : ℚ → ℚ → ℚ) (s : AppState)
    (hx : absQ (s.mouseX - s.lastMouseX) ≤ EPSILON)
    (hy : absQ (s.mouseY - s.lastMouseY) ≤ EPSILON) :
    mouseMovedB s = false ∧
    (∀ t : AppState, mouseMovedB t = true ↔
        (EPSILON < absQ (t.mouseX - t.lastMouseX) ∨ EPSILON < absQ (t.mouseY - t.lastMouseY))) ∧
    (∀ q ∈ s.points, absQ q.offsetX ≤ EPSILON → absQ q.offsetY ≤ EPSILON →
        updatePoint dist s.mouseX s.mouseY (mouseMovedB s) q = (q, false)) ∧
    (stepAnyChange dist s = false →
        (animate dist s).isAnimating = false ∧ (animate dist s).scheduled = false) := by
  have hm : mouseMovedB s = false := by
    rw [mouseMovedB]
    simp only [Bool.or_eq_false_iff, decide_eq_false_iff_not, not_lt]
    exact ⟨hx, hy⟩
  refine ⟨hm, ?_, ?_, ?_⟩
  · intro t
    rw [mouseMovedB]
    simp [Bool.or_eq_true, decide_eq_true_eq]
  · intro q hq hqx hqy
    rw [hm]
    exact updatePoint_skip dist s.mouseX s.mouseY q hqx hqy
  · intro hany
    simp only [animate]
    rw [if_pos ⟨hany, hm⟩]
    exact ⟨rfl, rfl⟩

/-- Witness for C10: a pointer that moved exactly EPSILON = 0.01 px on the x
axis and not at all on the y axis. -/
theorem C10_witness :
    (absQ ((⟨0, 0, 1/100, 0, true, true, []⟩ : AppState).mouseX -
        (⟨0, 0, 1/100, 0, true, true, []⟩ : AppState).lastMouseX) ≤ EPSILON ∧
     absQ ((⟨0, 0, 1/100, 0, true, true, []⟩ : AppState).mouseY -
        (⟨0, 0, 1/100, 0, true, true, []⟩ : AppState).lastMouseY) ≤ EPSILON) ∧
    (mouseMovedB ⟨0, 0, 1/100, 0, true, true, []⟩ = false ∧
     (∀ t : AppState, mouseMovedB t = true ↔
        (EPSILON < absQ (t.mouseX - t.lastMouseX) ∨ EPSILON < absQ (t.mouseY - t.lastMouseY))) ∧
     (∀ q ∈ (⟨0, 0, 1/100, 0, true, true, []⟩ : AppState).points,
        absQ q.offsetX ≤ EPSILON → absQ q.offsetY ≤ EPSILON →
        updatePoint distAxis (⟨0, 0, 1/100, 0, true, true, []⟩ : AppState).mouseX
          (⟨0, 0, 1/100, 0, true, true, []⟩ : AppState).mouseY
          (mouseMovedB ⟨0, 0, 1/100, 0, true, true, []⟩) q = (q, false)) ∧
     (stepAnyChange distAxis ⟨0, 0, 1/100, 0, true, true, []⟩ = false →
        (animate distAxis ⟨0, 0, 1/100, 0, true, true, []⟩).isAnimating = false ∧
        (animate distAxis ⟨0, 0, 1/100, 0, true, true, []⟩).scheduled = false)) :=
  ⟨⟨by norm_num [absQ, EPSILON], by norm_num [absQ, EPSILON]⟩,
   C10 distAxis ⟨0, 0, 1/100, 0, true, true, []⟩
     (by norm_num [absQ, EPSILON]) (by norm_num [absQ, EPSILON])⟩
